import Mathlib

/-
Verification development for the sqlitui terminal UI.

Shallow embedding of:
  - the SQL text layer of src/db/db.go (quoteIdent and the query builders),
  - the data grid component (TableDataModel, src/ui/model.go lines 360-925),
  - the root controller (Model, src/ui/model.go lines 1-359),
  - the query-input modal (src/ui/queryinput.go),
  - the shared key bindings (keybindings file).

Go machine integers are modelled as Lean Int; Go integer division truncates
toward zero, which is Int.tdiv.  Go len(...) on the strings appearing
here counts bytes; all identifiers and cell values in the development are
ASCII, where byte count and character count coincide, so String.length is
used.  The storage backend (database/sql) is an external collaborator and is
modelled as a record of (possibly failing) query functions.
-/

abbrev Row := List String

/-- Go's `/` on int truncates toward zero; `Int.tdiv` is Lean's truncating
division. -/
def goDiv (a b : Int) : Int := Int.tdiv a b

/- ----------------------------------------------------------------- -/
/- db.go: the SQL text layer                                          -/
/- ----------------------------------------------------------------- -/

/-- Character-wise model of the call to ReplaceAll in quoteIdent
(db.go:152), which replaces every double quote by two double quotes.  With a
one-character pattern, Go's non-overlapping left-to-right replacement is
exactly this character-wise substitution. -/
def escQuote : List Char → List Char
  | [] => []
  | c :: cs => (if c = '\"' then ['\"', '\"'] else [c]) ++ escQuote cs

/-- quoteIdent (db.go:151-153): wrap an identifier in double quotes, doubling
any embedded double quote. -/
def quoteIdent (s : String) : String :=
  "\"" ++ String.mk (escQuote s.data) ++ "\""

/-- SQL text built by GetRows (db.go:70). -/
def getRowsQuery (table : String) : String :=
  "SELECT * FROM " ++ quoteIdent table ++ " LIMIT ? OFFSET ?"

/-- SQL text built by FilterColumn (db.go:92). -/
def filterColumnQuery (table column : String) : String :=
  "SELECT * FROM " ++ quoteIdent table ++ " WHERE " ++ quoteIdent column ++
    " LIKE ? COLLATE NOCASE LIMIT ? OFFSET ?"

/-- SQL text built by CountRows (db.go:104). -/
def countRowsQuery (table : String) : String :=
  "SELECT COUNT(*) FROM " ++ quoteIdent table

/-- SQL text built by CountFilteredRows (db.go:111). -/
def countFilteredQuery (table column : String) : String :=
  "SELECT COUNT(*) FROM " ++ quoteIdent table ++ " WHERE " ++ quoteIdent column ++
    " LIKE ? COLLATE NOCASE"

/-- SQL text built by GetColumns (db.go:46). -/
def getColumnsQuery (table : String) : String :=
  "PRAGMA table_info(" ++ quoteIdent table ++ ")"

/-- A standard SQL lexer's scan of the interior of a double-quoted identifier:
a doubled quote is a literal quote, a single quote ends the identifier.
Returns the decoded identifier and the remaining input.  Used to state that a
quoted identifier is self-delimiting (nothing can escape the quoting). -/
def scanQuoted : List Char → Option (List Char × List Char)
  | [] => none
  | c :: cs =>
    if c = '\"' then
      match cs with
      | c2 :: cs2 =>
        if c2 = '\"' then
          match scanQuoted cs2 with
          | some (ident, rest) => some ('\"' :: ident, rest)
          | none => none
        else some ([], cs)
      | [] => some ([], [])
    else
      match scanQuoted cs with
      | some (ident, rest) => some (c :: ident, rest)
      | none => none

/-- Read one double-quoted identifier from the head of the input. -/
def readQuoted : List Char → Option (List Char × List Char)
  | '\"' :: rest => scanQuoted rest
  | _ => none

/- ----------------------------------------------------------------- -/
/- The storage backend, an external collaborator (database/sql)       -/
/- ----------------------------------------------------------------- -/

/-- The backend operations the UI calls (db.go).  Arguments follow the Go
signatures: GetRows table limit offset; FilterColumn table column query
limit offset; etc.  Failure is an `Except` error, mirroring Go's `err`. -/
structure Db where
  getRows : String → Int → Int → Except String (List Row)
  countRows : String → Except String Int
  filterRows : String → String → String → Int → Int → Except String (List Row)
  countFiltered : String → String → String → Except String Int
  exec : String → Except String (List String × List Row)

/-- A backend over one fixed table: GetRows slices the rows, CountRows counts
them.  Used to instantiate scenarios (e.g. a 25-row `users` table). -/
def dbOfTable (tbl : List Row) : Db where
  getRows := fun _ limit offset => .ok ((tbl.drop offset.toNat).take limit.toNat)
  countRows := fun _ => .ok (tbl.length : Int)
  filterRows := fun _ _ _ _ _ => .ok []
  countFiltered := fun _ _ _ => .ok 0
  exec := fun _ => .error "not a table backend"

/- ----------------------------------------------------------------- -/
/- Shared key bindings (keybindings file)                             -/
/- ----------------------------------------------------------------- -/

def quitKeys : List String := ["q", "ctrl+c"]
def switchTabKeys : List String := ["tab"]
def focusRightKeys : List String := ["right"]
def focusLeftKeys : List String := ["left"]
def selectKeys : List String := ["enter"]
def openQueryKeys : List String := ["ctrl+e"]
def refreshKeys : List String := ["ctrl+r"]
def nextPageKeys : List String := ["]"]
def prevPageKeys : List String := ["["]

/-- key.Matches: the message's key string is among the binding's keys. -/
def keyMatches (k : String) (binding : List String) : Bool :=
  binding.contains k

/- ----------------------------------------------------------------- -/
/- Data grid (TableDataModel, model.go lines 360-925)                 -/
/- ----------------------------------------------------------------- -/

inductive FState where
  | filterOff
  | filterPickCol
  | filterInput
deriving DecidableEq

def minColWidth : Int := 10
def maxColWidth : Int := 40
def colPadding : Int := 3
def indicatorColLen : Int := 12

/-- measureColWidth (model.go:828-843): the larger of header length and the
longest cell in the column, plus padding, clamped to [minColWidth,
maxColWidth].  `r.getD colIndex ""` returns "" (length 0, never larger than
w) when colIndex is out of range, matching the Go bounds check. -/
def measureColWidth (colIndex : Nat) (header : String) (rows : List Row) : Int :=
  let w0 : Nat := rows.foldl
    (fun w r =>
      if colIndex < r.length ∧ w < (r.getD colIndex "").length
      then (r.getD colIndex "").length else w)
    header.length
  let w1 : Int := (w0 : Int) + colPadding
  let w2 : Int := if w1 < minColWidth then minColWidth else w1
  if w2 > maxColWidth then maxColWidth else w2

/-- The greedy accept loop of fitColumns (model.go:856-871).  `total` is the
full column count (for computing `remaining`), `i` the index of the head of
the remaining column list, `used` the width consumed so far.  The Go `break`
abandons the rest of the loop, returning the widths accepted so far. -/
def fitKeep (rows : List Row) (available : Int) (total : Nat) :
    List String → Nat → Int → List Int
  | [], _, _ => []
  | c :: rest, i, used =>
    let w := measureColWidth i c rows
    let remaining : Int := (total : Int) - (i : Int) - 1
    let needed := w + (if 0 < remaining then indicatorColLen else 0)
    if used + needed > available ∧ 0 < i then []
    else w :: fitKeep rows available total rest (i + 1) (used + w)

/-- The width budget of fitColumns (model.go:848-851): innerWidth minus the
table border, floored at minColWidth. -/
def availWidth (innerWidth : Int) : Int :=
  if innerWidth - 2 < minColWidth then minColWidth else innerWidth - 2

/-- fitColumns (model.go:847-888).  Go threads `used` through the accept
loop; it equals the sum of the accepted widths.  Leftover space (after
reserving the indicator column when some columns are hidden) is distributed
evenly by integer division. -/
def fitColumns (columns : List String) (rows : List Row) (innerWidth : Int) :
    Nat × List Int :=
  let available := availWidth innerWidth
  let widths := fitKeep rows available columns.length columns 0 0
  let used := widths.sum
  let displayCols := widths.length
  let hiddenCols := columns.length - displayCols
  let leftover0 := available - used
  let leftover := if 0 < hiddenCols then leftover0 - indicatorColLen else leftover0
  if 0 < leftover ∧ 0 < displayCols then
    (displayCols, widths.map (fun w => w + goDiv leftover (displayCols : Int)))
  else
    (displayCols, widths)

/-- buildTableColumns (model.go:891-908): header titles with widths, plus a
"+ N cols" indicator column when some columns are hidden. -/
def buildTableColumns (columns : List String) (displayCols : Nat)
    (widths : List Int) (totalCols : Nat) : List (String × Int) :=
  let hiddenCols := totalCols - displayCols
  (columns.take displayCols).zip widths ++
    (if 0 < hiddenCols
     then [("+ " ++ toString hiddenCols ++ " cols", indicatorColLen)]
     else [])

/-- truncateRows (model.go:912-925): keep the first maxCols values of each
row; when hasExtra, append an empty trailing cell for the indicator column. -/
def truncateRows (rows : List Row) (maxCols : Nat) (hasExtra : Bool) : List Row :=
  rows.map (fun r =>
    let row := if maxCols < r.length then r.take maxCols else r
    if hasExtra then row ++ [""] else row)

/-- bubbles' clamp(v, low, high) = min(max(v, low), high). -/
def clampI (v lo hi : Int) : Int := min (max v lo) hi

/-- The grid state (TableDataModel, model.go:409-434).  The bubbles table
sub-model is represented by its rows (`tableRows`) and cursor; the text
input by its current value.  Purely visual sub-state (styles, stored
heights, the input prompt) is not represented. -/
structure GridState where
  tableName : String
  columns : List String
  displayCols : Nat
  allRows : List Row
  width : Int
  height : Int
  tableRows : List Row
  cursor : Int
  page : Int
  pageSize : Int
  totalRows : Int
  fState : FState
  fColIndex : Nat
  fColScroll : Nat
  fCol : String
  fInputValue : String
  fActive : Bool
  fQuery : String
  fTotalRows : Int
  fPrevPage : Int
deriving DecidableEq

/-- NewTableDataModel (model.go:436-486). -/
def NewTableDataModel (name : String) (columns : List String) (rows : List Row)
    (width height page pageSize totalRows : Int) : GridState :=
  let innerWidth := width - 2
  let fit := fitColumns columns rows innerWidth
  let displayCols := fit.1
  { tableName := name
    columns := columns
    displayCols := displayCols
    allRows := rows
    width := width
    height := height
    tableRows := truncateRows rows displayCols (decide (displayCols < columns.length))
    cursor := 0
    page := page
    pageSize := pageSize
    totalRows := totalRows
    fState := .filterOff
    fColIndex := 0
    fColScroll := 0
    fCol := ""
    fInputValue := ""
    fActive := false
    fQuery := ""
    fTotalRows := 0
    fPrevPage := 0 }

/-- The `total` local of totalPages (model.go:501-504): the filtered count
while a filter is active, the table count otherwise. -/
def GridState.relevantTotal (m : GridState) : Int :=
  if m.fActive then m.fTotalRows else m.totalRows

/-- totalPages (model.go:500-509). -/
def GridState.totalPages (m : GridState) : Int :=
  if m.relevantTotal ≤ 0 then 1
  else goDiv (m.relevantTotal + m.pageSize - 1) m.pageSize

/-- hasNextPage (model.go:511-513). -/
def GridState.hasNextPage (m : GridState) : Prop :=
  m.page < m.totalPages - 1

instance (m : GridState) : Decidable m.hasNextPage := by
  unfold GridState.hasNextPage; infer_instance

/-- hasPrevPage (model.go:515-517). -/
def GridState.hasPrevPage (m : GridState) : Prop :=
  0 < m.page

instance (m : GridState) : Decidable m.hasPrevPage := by
  unfold GridState.hasPrevPage; infer_instance

/-- hasHiddenCols (model.go:588-590). -/
def GridState.hasHiddenCols (m : GridState) : Bool :=
  decide (m.displayCols < m.columns.length)

/-- pickerVisibleCount (model.go:489-498). -/
def GridState.pickerVisibleCount (m : GridState) : Nat :=
  let maxVisible := goDiv (m.height - 3) 2
  let maxVisible := if maxVisible < 3 then 3 else maxVisible
  if (m.columns.length : Int) < maxVisible then m.columns.length
  else maxVisible.toNat

/-- An asynchronous command issued by the grid (a tea.Cmd).  loadPage and
loadFilteredPage record the fetch the closures loadPageCmd /
loadFilteredPageCmd (model.go:519-559) would perform; rowSelected records
the RowSelectedMsg the Select handler emits. -/
inductive GridCmd where
  | none
  | loadPage (page pageSize : Int) (cursorEnd : Bool)
  | loadFilteredPage (col query : String) (page pageSize : Int) (cursorEnd : Bool)
  | rowSelected (columns : List String) (values : Row)
deriving DecidableEq

/-- nextPageCmd (model.go:561-566). -/
def GridState.nextPageCmd (m : GridState) : GridCmd :=
  if m.fActive then .loadFilteredPage m.fCol m.fQuery (m.page + 1) m.pageSize false
  else .loadPage (m.page + 1) m.pageSize false

/-- prevPageCmd (model.go:568-573). -/
def GridState.prevPageCmd (m : GridState) : GridCmd :=
  if m.fActive then .loadFilteredPage m.fCol m.fQuery (m.page - 1) m.pageSize true
  else .loadPage (m.page - 1) m.pageSize true

/-- The bubbles table's own key handling (external component): LineDown on
"down"/"j", LineUp on "up"/"k", cursor clamped to [0, len(rows)-1].  Other
table motions (page up/down, top/bottom) are not exercised by any claim and
are modelled as leaving the state unchanged, as are all keys the table does
not bind ("[", "]", "enter", "f", ...). -/
def tableUpdateKey (k : String) (m : GridState) : GridState :=
  if k = "down" ∨ k = "j" then
    { m with cursor := clampI (m.cursor + 1) 0 ((m.tableRows.length : Int) - 1) }
  else if k = "up" ∨ k = "k" then
    { m with cursor := clampI (m.cursor - 1) 0 ((m.tableRows.length : Int) - 1) }
  else m

/-- The bubbles text input (external component): a single printable character
is inserted, backspace deletes, other keys leave the value unchanged. -/
def textInputUpdate (k : String) (v : String) : String :=
  if k.length = 1 then v ++ k
  else if k = "backspace" then String.mk v.data.dropLast
  else v

/-- applyFilter (model.go:748-770): query the backend for rows matching the
current input value in the chosen column; on success show them and jump to
page 0; on a failed fetch fall back to the unfiltered page rows. -/
def applyFilter (db : Db) (m : GridState) : GridState :=
  let query := m.fInputValue
  if query = "" then
    { m with tableRows := truncateRows m.allRows m.displayCols m.hasHiddenCols
             cursor := clampI 0 0 ((truncateRows m.allRows m.displayCols m.hasHiddenCols).length - 1)
             fTotalRows := 0 }
  else
    match db.filterRows m.tableName m.fCol query m.pageSize 0 with
    | .error _ =>
      { m with tableRows := truncateRows m.allRows m.displayCols m.hasHiddenCols
               cursor := clampI 0 0 ((truncateRows m.allRows m.displayCols m.hasHiddenCols).length - 1) }
    | .ok rows =>
      let total := match db.countFiltered m.tableName m.fCol query with
        | .ok t => t
        | .error _ => (rows.length : Int)
      { m with fTotalRows := total
               page := 0
               tableRows := truncateRows rows m.displayCols m.hasHiddenCols
               cursor := clampI 0 0 ((truncateRows rows m.displayCols m.hasHiddenCols).length - 1) }

/-- updateNormal (model.go:625-670). -/
def updateNormal (m : GridState) (k : String) : GridState × GridCmd :=
  if k = "f" then
    ({ m with fState := .filterPickCol, fColIndex := 0, fColScroll := 0,
              fPrevPage := m.page }, .none)
  else if keyMatches k nextPageKeys ∧ m.hasNextPage then
    (m, m.nextPageCmd)
  else if keyMatches k prevPageKeys ∧ m.hasPrevPage then
    (m, m.prevPageCmd)
  else if (k = "down" ∨ k = "j") ∧ (m.tableRows.length : Int) - 1 ≤ m.cursor ∧ m.hasNextPage then
    (m, m.nextPageCmd)
  else if (k = "up" ∨ k = "k") ∧ m.cursor ≤ 0 ∧ m.hasPrevPage then
    (m, m.prevPageCmd)
  else if keyMatches k selectKeys ∧ 0 ≤ m.cursor ∧ m.cursor < (m.allRows.length : Int) then
    (m, .rowSelected m.columns (m.allRows.getD m.cursor.toNat []))
  else
    (tableUpdateKey k m, .none)

/-- updatePickCol (model.go:672-715). -/
def updatePickCol (m : GridState) (k : String) : GridState × GridCmd :=
  if k = "esc" then
    let rows := truncateRows m.allRows m.displayCols m.hasHiddenCols
    ({ m with fState := .filterOff, fActive := false, fQuery := "",
              fTotalRows := 0, page := m.fPrevPage,
              tableRows := rows,
              cursor := clampI 0 0 ((rows.length : Int) - 1) }, .none)
  else if k = "up" ∨ k = "k" then
    if 0 < m.fColIndex then
      let i := m.fColIndex - 1
      ({ m with fColIndex := i,
                fColScroll := if i < m.fColScroll then i else m.fColScroll }, .none)
    else (m, .none)
  else if k = "down" ∨ k = "j" then
    if m.fColIndex < m.columns.length - 1 then
      let i := m.fColIndex + 1
      let visible := m.pickerVisibleCount
      ({ m with fColIndex := i,
                fColScroll := if m.fColScroll + visible ≤ i then i - visible + 1
                              else m.fColScroll }, .none)
    else (m, .none)
  else if k = "enter" then
    ({ m with fCol := m.columns.getD m.fColIndex "", fState := .filterInput,
              fInputValue := "" }, .none)
  else (m, .none)

/-- updateFilterInput (model.go:717-745). -/
def updateFilterInput (db : Db) (m : GridState) (k : String) : GridState × GridCmd :=
  if k = "esc" then
    let rows := truncateRows m.allRows m.displayCols m.hasHiddenCols
    ({ m with fInputValue := "", fState := .filterOff, fActive := false,
              fQuery := "", fTotalRows := 0, page := m.fPrevPage,
              tableRows := rows,
              cursor := clampI 0 0 ((rows.length : Int) - 1) }, .none)
  else if k = "enter" then
    ({ m with fActive := m.fInputValue ≠ "", fQuery := m.fInputValue,
              fState := .filterOff }, .none)
  else
    (applyFilter db { m with fInputValue := textInputUpdate k m.fInputValue }, .none)

/-- TableDataModel.Update on a key message (model.go:607-623): dispatch on
the filter sub-state. -/
def gridUpdateKey (db : Db) (m : GridState) (k : String) : GridState × GridCmd :=
  match m.fState with
  | .filterPickCol => updatePickCol m k
  | .filterInput => updateFilterInput db m k
  | .filterOff => updateNormal m k

/-- SetSize (model.go:575-586): refit the columns to the new width and
re-truncate the displayed rows. -/
def gridSetSize (m : GridState) (width height : Int) : GridState :=
  let innerWidth := width - 2
  let fit := fitColumns m.columns m.allRows innerWidth
  let displayCols := fit.1
  { m with width := width, height := height,
           displayCols := displayCols,
           tableRows := truncateRows m.allRows displayCols
             (decide (displayCols < m.columns.length)) }

/-- The page pair interpolated by StatusText (model.go:810-825): displayed
current page (page+1) and total pages. -/
def GridState.statusPagePair (m : GridState) : Int × Int :=
  (m.page + 1, m.totalPages)

/-- StatusText (model.go:810-825). -/
def GridState.statusText (m : GridState) : String :=
  let currentPage := m.page + 1
  let pages := m.totalPages
  if m.fActive then
    m.tableName ++ " (page " ++ toString currentPage ++ "/" ++ toString pages ++
      ", " ++ toString m.fTotalRows ++ " results for " ++ m.fCol ++ ")"
  else if m.fState ≠ .filterOff then
    m.tableName ++ " (" ++ toString m.tableRows.length ++ " results for " ++ m.fCol ++ ")"
  else
    m.tableName ++ " (page " ++ toString currentPage ++ "/" ++ toString pages ++
      ", " ++ toString m.totalRows ++ " rows)"

/- ----------------------------------------------------------------- -/
/- Root controller (Model, model.go lines 1-359)                      -/
/- ----------------------------------------------------------------- -/

inductive Pane where
  | list
  | data
deriving DecidableEq

/-- Messages routed through the single bubbletea event queue.  key carries
msg.String(); tableDataLoaded / errM / tablesLoaded / pageDataLoaded are the
asynchronous completion messages; the rest are child-to-parent messages. -/
inductive Msg where
  | key (k : String)
  | windowSize (w h : Int)
  | tablesLoaded (tables : List String)
  | tableDataLoaded (name : String) (cols : List String) (rows : List Row)
  | tableSelected (name : String)
  | rowSelected (cols : List String) (vals : Row)
  | errM (e : String)
  | closeDetail
  | queryResult (cols : List String) (rows : List Row)
  | pageDataLoaded (rows : List Row) (page pageSize totalRows : Int) (cursorEnd : Bool)
deriving DecidableEq

/-- Commands the root Update returns (tea.Cmd): quit terminates the program,
loadTable is the asynchronous table fetch (loadTableDataCmd), emit is a
closure that immediately produces a message, gridCmd wraps a grid command,
blink is the cursor-blink command of a freshly focused text input. -/
inductive RootCmd where
  | none
  | quit
  | loadTable (name : String)
  | emit (msg : Msg)
  | gridCmd (c : GridCmd)
  | blink
deriving DecidableEq

/-- The collection list pane (TableListModel): the wrapped bubbles list is
represented by whether its fuzzy filter is capturing input (FilterState ==
Filtering) and by the currently selected item.  Item navigation inside the
bubbles list is external-component behaviour not exercised by any claim. -/
structure ListState where
  items : List String
  filtering : Bool
  selected : Option String
deriving DecidableEq

/-- NewTableListModel: filter off, first item selected. -/
def newListState (tables : List String) : ListState :=
  { items := tables, filtering := false, selected := tables.head? }

/-- TableListModel.Update on a message: while the fuzzy filter is capturing,
every key goes to the inner list (the literal character is absorbed as
filter text); otherwise enter emits TableSelectedMsg for the selected item.
Other keys drive inner-list navigation, which no claim observes. -/
def listUpdate (l : ListState) (msg : Msg) : ListState × RootCmd :=
  match msg with
  | .key k =>
    if l.filtering then (l, .none)
    else if k = "enter" then
      match l.selected with
      | some n => (l, .emit (.tableSelected n))
      | none => (l, .none)
    else (l, .none)
  | _ => (l, .none)

/-- The query-input modal (QueryInputModel, queryinput.go): the textarea's
value and the last execution error. -/
structure QueryState where
  value : String
  queryErr : String
deriving DecidableEq

def newQueryState : QueryState := { value := "", queryErr := "" }

/-- The bubbles textarea (external component): printable characters are
inserted, enter inserts a newline, backspace deletes. -/
def textAreaUpdate (k : String) (v : String) : String :=
  if k.length = 1 then v ++ k
  else if k = "enter" then v ++ "\n"
  else if k = "backspace" then String.mk v.data.dropLast
  else v

/-- QueryInputModel.Update (queryinput.go:69-95). -/
def queryUpdate (db : Db) (q : QueryState) (msg : Msg) : QueryState × RootCmd :=
  match msg with
  | .key k =>
    if k = "esc" then (q, .emit .closeDetail)
    else if k = "ctrl+r" ∨ k = "ctrl+enter" then
      if q.value = "" then (q, .none)
      else
        match db.exec q.value with
        | .error e => ({ q with queryErr := e }, .none)
        | .ok (cols, rows) => (q, .emit (.queryResult cols rows))
    else ({ q with value := textAreaUpdate k q.value }, .none)
  | _ => (q, .none)

/-- The error line of QueryInputModel.View (queryinput.go:101-105). -/
def queryErrLine (q : QueryState) : String :=
  if q.queryErr ≠ "" then "Error: " ++ q.queryErr else " "

/-- The row-detail modal (RowDetailModel): the record it was opened with. -/
structure DetailState where
  columns : List String
  values : Row
deriving DecidableEq

/-- RowDetailModel.Update: esc or enter dismisses the popup. -/
def detailUpdate (d : DetailState) (msg : Msg) : DetailState × RootCmd :=
  match msg with
  | .key k => if k = "esc" ∨ k = "enter" then (d, .emit .closeDetail) else (d, .none)
  | _ => (d, .none)

/-- The root model (Model, model.go:42-67). -/
structure RootModel where
  focused : Pane
  loaded : Bool
  dataLoaded : Bool
  err : Option String
  width : Int
  height : Int
  leftWidth : Int
  rightWidth : Int
  tableList : ListState
  tableData : GridState
  showDetail : Bool
  rowDetail : DetailState
  showQuery : Bool
  queryInput : QueryState
deriving DecidableEq

/-- calcPaneSizes (model.go:87-95). -/
def calcPaneSizes (width : Int) : Int × Int :=
  let available := width - 4
  let leftWidth := goDiv (available * 30) 100
  let leftWidth := if leftWidth < 25 then 25 else leftWidth
  (leftWidth, available - leftWidth)

/-- paneHeight (model.go:102-104). -/
def paneHeight (m : RootModel) : Int :=
  max (m.height - 4) 5

/-- Modelled from the spec: the handler at model.go:213-219 rebuilds the grid
from the completion payload via the grid constructor, whose pagination
arguments (initial page, page size, total count) do not appear in the
handler text under src/.  Per section 4.2 a fresh load starts at page 0; the
fetch limit of loadTableDataCmd (model.go:349) is 1000, and the initial
total is the fetched row count. -/
def mkLoadedGrid (name : String) (cols : List String) (rows : List Row)
    (width height : Int) : GridState :=
  NewTableDataModel name cols rows width height 0 1000 (rows.length : Int)

/-- Modelled from the spec: the QueryResultMsg handler (model.go:113-121)
likewise rebuilds the grid via the constructor; per section 4.5 the query
result grid is "paging disabled or sized to the whole result set", so page
0 with the whole result as one page. -/
def mkQueryResultGrid (cols : List String) (rows : List Row)
    (width height : Int) : GridState :=
  NewTableDataModel "query result" cols rows width height 0
    (rows.length : Int) (rows.length : Int)

/-- Delegation to the focused pane (model.go:235-249).  Non-key messages
delegated to a pane reach only the wrapped bubbles components, which ignore
them; in particular pageDataLoadedMsg has no handler anywhere in the root
Update and is dropped here. -/
def delegate (db : Db) (m : RootModel) (msg : Msg) : RootModel × RootCmd :=
  match m.focused with
  | .list =>
    if m.loaded then
      let r := listUpdate m.tableList msg
      ({ m with tableList := r.1 }, r.2)
    else (m, .none)
  | .data =>
    if m.dataLoaded then
      match msg with
      | .key k =>
        let r := gridUpdateKey db m.tableData k
        ({ m with tableData := r.1 }, .gridCmd r.2)
      | _ => (m, .none)
    else (m, .none)

/-- The tea.KeyMsg arm of Model.Update (model.go:156-200): the global key
chain, falling through to pane delegation. -/
def rootUpdateKey (db : Db) (m : RootModel) (k : String) : RootModel × RootCmd :=
  if keyMatches k switchTabKeys then
    ({ m with focused := if m.focused = .list then .data else .list }, .none)
  else if keyMatches k focusRightKeys ∧ m.focused = .list ∧ m.loaded then
    if ¬ m.tableList.filtering then
      let m1 := { m with focused := Pane.data }
      match m1.tableList.selected with
      | some name =>
        if ¬ m1.dataLoaded ∨ m1.tableData.tableName ≠ name
        then (m1, .loadTable name)
        else (m1, .none)
      | none => (m1, .none)
    else (m, .none)
  else if keyMatches k focusLeftKeys ∧ m.focused = .data then
    ({ m with focused := Pane.list }, .none)
  else if keyMatches k quitKeys then
    if m.focused = .list ∧ m.tableList.filtering then
      delegate db m (.key k)
    else (m, .quit)
  else if keyMatches k openQueryKeys then
    ({ m with queryInput := newQueryState, showQuery := true }, .blink)
  else
    delegate db m (.key k)

/-- Model.Update when no modal is open (model.go:142-251). -/
def rootUpdateMain (db : Db) (m : RootModel) (msg : Msg) : RootModel × RootCmd :=
  match msg with
  | .windowSize w h =>
    let m1 := { m with width := w, height := h }
    let sizes := calcPaneSizes w
    let m2 := { m1 with leftWidth := sizes.1, rightWidth := sizes.2 }
    ({ m2 with tableData :=
        if m2.dataLoaded then gridSetSize m2.tableData sizes.2 (paneHeight m2)
        else m2.tableData }, .none)
  | .key k => rootUpdateKey db m k
  | .tablesLoaded tables =>
    let m1 := { m with tableList := newListState tables, loaded := true }
    match tables with
    | [] => (m1, .none)
    | t :: _ => (m1, .loadTable t)
  | .tableDataLoaded name cols rows =>
    ({ m with tableData := mkLoadedGrid name cols rows m.rightWidth (paneHeight m),
              dataLoaded := true }, .none)
  | .tableSelected name => (m, .loadTable name)
  | .rowSelected cols vals =>
    ({ m with rowDetail := { columns := cols, values := vals }, showDetail := true }, .none)
  | .errM e => ({ m with err := some e }, .none)
  | _ => delegate db m msg

/-- The query-modal-open branch of Model.Update (model.go:107-127). -/
def rootUpdateQueryOpen (db : Db) (m : RootModel) (msg : Msg) : RootModel × RootCmd :=
  match msg with
  | .closeDetail => ({ m with showQuery := false }, .none)
  | .queryResult cols rows =>
    ({ m with showQuery := false,
              tableData := mkQueryResultGrid cols rows m.rightWidth (paneHeight m),
              dataLoaded := true,
              focused := Pane.data }, .none)
  | _ =>
    let r := queryUpdate db m.queryInput msg
    ({ m with queryInput := r.1 }, r.2)

/-- The detail-modal-open branch of Model.Update (model.go:129-140). -/
def rootUpdateDetailOpen (m : RootModel) (msg : Msg) : RootModel × RootCmd :=
  match msg with
  | .closeDetail => ({ m with showDetail := false }, .none)
  | _ =>
    let r := detailUpdate m.rowDetail msg
    ({ m with rowDetail := r.1 }, r.2)

/-- Model.Update (model.go:106-252): the query modal captures everything
while open, then the row-detail modal, then the main dispatch. -/
def rootUpdate (db : Db) (m : RootModel) (msg : Msg) : RootModel × RootCmd :=
  if m.showQuery then rootUpdateQueryOpen db m msg
  else if m.showDetail then rootUpdateDetailOpen m msg
  else rootUpdateMain db m msg

/-- The top-level branch of Model.View (model.go:254-266): a set error
replaces the entire view with the error screen; before the table list is
loaded a loading screen shows; otherwise the two-pane split (over which the
modal overlays are placed). -/
inductive ViewKind where
  | errorScreen
  | loadingScreen
  | mainSplit
deriving DecidableEq

def rootViewKind (m : RootModel) : ViewKind :=
  if m.err.isSome then .errorScreen
  else if ¬ m.loaded then .loadingScreen
  else .mainSplit

/- ----------------------------------------------------------------- -/
/- Spec-modelled completion application for page fetches              -/
/- ----------------------------------------------------------------- -/

/-- Modelled from the spec: src/ declares pageDataLoadedMsg (model.go:392-398)
and the commands producing it (loadPageCmd / loadFilteredPageCmd), but the
root handler that applies it to the grid is not present under src/.  Per
section 4.2, "on success, rows and counts are atomically swapped into the
view and the cursor is placed either at the first row (moving forward) or at
the last row (moving backward)"; the count refreshes the filtered total when
a filter is active and the table total otherwise. -/
def applyPageData (m : GridState) (rows : List Row)
    (page pageSize totalRows : Int) (cursorEnd : Bool) : GridState :=
  { m with allRows := rows,
           tableRows := truncateRows rows m.displayCols m.hasHiddenCols,
           page := page,
           pageSize := pageSize,
           totalRows := if m.fActive then m.totalRows else totalRows,
           fTotalRows := if m.fActive then totalRows else m.fTotalRows,
           cursor := if cursorEnd then (rows.length : Int) - 1 else 0 }

/- ----------------------------------------------------------------- -/
/- Concrete fixtures used by witnesses and counterexamples            -/
/- ----------------------------------------------------------------- -/

/-- 25 one-column records, the `users` table of the spec scenario. -/
def sampleRows25 : List Row := (List.range 25).map (fun i => [toString i])

/-- Backend serving the 25-row `users` table. -/
def usersDb : Db := dbOfTable sampleRows25

/-- The grid showing page 2 of `users` (page size 10, 25 total). -/
def gridUsersPage2 : GridState :=
  NewTableDataModel "users" ["id"] ((List.range 5).map (fun i => [toString (20 + i)]))
    50 20 2 10 25

/- ----------------------------------------------------------------- -/
/- Claim C9: quoteIdent                                               -/
/- ----------------------------------------------------------------- -/

lemma scanQuoted_escQuote (s : List Char) (rest : List Char)
    (hr : rest.head? ≠ some '\"') :
    scanQuoted (escQuote s ++ ('\"' :: rest)) = some (s, rest) := by
  induction s with
  | nil =>
    cases rest with
    | nil => simp [escQuote, scanQuoted]
    | cons r rs =>
      have hrne : r ≠ '\"' := by simpa using hr
      simp [escQuote, scanQuoted, hrne]
  | cons c cs ih =>
    by_cases hc : c = '\"'
    · subst hc
      have hesc : escQuote ('\"' :: cs) = '\"' :: '\"' :: escQuote cs := by
        simp [escQuote]
      rw [hesc, List.cons_append, List.cons_append, scanQuoted.eq_def]
      simp [ih]
    · have hesc : escQuote (c :: cs) = c :: escQuote cs := by
        simp [escQuote, hc]
      rw [hesc, List.cons_append, scanQuoted.eq_def]
      simp only [if_neg hc, ih]

lemma quoteIdent_data (u : String) :
    (quoteIdent u).data = '\"' :: (escQuote u.data ++ ['\"']) := by
  show (("\"" ++ String.mk (escQuote u.data) ++ "\"")).data = _
  rw [String.data_append, String.data_append]
  rfl

lemma readQuoted_quoteIdent (u : String) (r : List Char)
    (hru : r.head? ≠ some '\"') :
    readQuoted ((quoteIdent u).data ++ r) = some (u.data, r) := by
  rw [quoteIdent_data]
  show scanQuoted ((escQuote u.data ++ ['\"']) ++ r) = _
  rw [List.append_assoc]
  exact scanQuoted_escQuote u.data r hru

/-- C9: quoteIdent wraps the identifier in double quotes with each embedded
double quote doubled; a quoted identifier is self-delimiting (a SQL reader
recovers exactly the original identifier and stops at the closing quote, so
no identifier value can escape the quoting, and quoting is injective); and
the SQL texts of GetRows, FilterColumn, CountRows, CountFilteredRows and
GetColumns interpolate identifiers only through quoteIdent — in particular
the table identifier of FilterColumn reads back exactly as one quoted
identifier followed by the fixed template tail. -/
theorem quoteIdent_quotes_and_escapes (s t : String) (rest : List Char)
    (hr : rest.head? ≠ some '\"') :
    (quoteIdent s).data = '\"' :: (escQuote s.data ++ ['\"']) ∧
    readQuoted ((quoteIdent s).data ++ rest) = some (s.data, rest) ∧
    (quoteIdent s = quoteIdent t → s = t) ∧
    getRowsQuery s = "SELECT * FROM " ++ quoteIdent s ++ " LIMIT ? OFFSET ?" ∧
    readQuoted (List.drop 14 (filterColumnQuery s t).data) =
      some (s.data,
        (" WHERE " ++ quoteIdent t ++ " LIKE ? COLLATE NOCASE LIMIT ? OFFSET ?").data) ∧
    countRowsQuery s = "SELECT COUNT(*) FROM " ++ quoteIdent s ∧
    countFilteredQuery s t =
      "SELECT COUNT(*) FROM " ++ quoteIdent s ++ " WHERE " ++ quoteIdent t ++
        " LIKE ? COLLATE NOCASE" ∧
    getColumnsQuery s = "PRAGMA table_info(" ++ quoteIdent s ++ ")" := by
  refine ⟨quoteIdent_data s, readQuoted_quoteIdent s rest hr, ?_, rfl, ?_, rfl, rfl, rfl⟩
  · intro h
    have h1 := readQuoted_quoteIdent s [] (by simp)
    have h2 := readQuoted_quoteIdent t [] (by simp)
    rw [h] at h1
    have h3 := h1.symm.trans h2
    exact String.ext (by simpa using h3)
  · have hsplit : (filterColumnQuery s t).data =
        "SELECT * FROM ".data ++
          ((quoteIdent s).data ++
            (" WHERE " ++ quoteIdent t ++ " LIKE ? COLLATE NOCASE LIMIT ? OFFSET ?").data) := by
      simp [filterColumnQuery, String.data_append, List.append_assoc]
    rw [hsplit]
    rw [show (14 : Nat) = "SELECT * FROM ".data.length from rfl, List.drop_left]
    refine readQuoted_quoteIdent s _ ?_
    rw [String.data_append, String.data_append]
    have h7 : (" WHERE ".data ++ (quoteIdent t).data ++
        " LIKE ? COLLATE NOCASE LIMIT ? OFFSET ?".data).head? = some ' ' := rfl
    rw [h7]
    decide

/-- Witness for C9 at a concrete identifier containing a double quote. -/
theorem quoteIdent_quotes_and_escapes_witness :
    ([' '].head? ≠ some '\"') ∧
    readQuoted ((quoteIdent "ta\"ble").data ++ [' ']) = some ("ta\"ble".data, [' ']) :=
  ⟨by decide, (quoteIdent_quotes_and_escapes "ta\"ble" "col" [' '] (by decide)).2.1⟩

/- ----------------------------------------------------------------- -/
/- Claim C10: totalPages is at least 1                                -/
/- ----------------------------------------------------------------- -/

/-- C10: with pageSize > 0, totalPages is at least 1 (also when the relevant
total — the filtered count while a filter is active — is zero, where it is
exactly 1), and when the relevant total is positive it is the ceiling of
total/pageSize (characterized by the two bounds); hence the page pair
interpolated by StatusText is at least 1/1 whenever page is nonnegative. -/
theorem totalPages_ge_one (m : GridState) (hps : 0 < m.pageSize) :
    1 ≤ m.totalPages ∧
    (m.relevantTotal ≤ 0 → m.totalPages = 1) ∧
    (0 < m.relevantTotal →
      (m.totalPages - 1) * m.pageSize < m.relevantTotal ∧
      m.relevantTotal ≤ m.totalPages * m.pageSize) ∧
    (0 ≤ m.page → 1 ≤ m.statusPagePair.1 ∧ 1 ≤ m.statusPagePair.2) := by
  have htp : m.totalPages =
      if m.relevantTotal ≤ 0 then 1 else goDiv (m.relevantTotal + m.pageSize - 1) m.pageSize := rfl
  by_cases hT : m.relevantTotal ≤ 0
  · rw [htp, if_pos hT]
    refine ⟨le_refl 1, fun _ => rfl, fun h => absurd h (by omega), fun hp => ?_⟩
    simp only [GridState.statusPagePair, htp, if_pos hT]
    omega
  · have hT0 : 0 < m.relevantTotal := by omega
    rw [htp, if_neg hT]
    have h1 : (0 : Int) ≤ m.relevantTotal + m.pageSize - 1 := by omega
    have h2 : goDiv (m.relevantTotal + m.pageSize - 1) m.pageSize =
        (m.relevantTotal + m.pageSize - 1) / m.pageSize :=
      Int.tdiv_eq_ediv h1 (le_of_lt hps)
    rw [h2]
    set q := (m.relevantTotal + m.pageSize - 1) / m.pageSize with hq
    have h3 := Int.ediv_add_emod (m.relevantTotal + m.pageSize - 1) m.pageSize
    have h4 : 0 ≤ (m.relevantTotal + m.pageSize - 1) % m.pageSize :=
      Int.emod_nonneg _ (by omega)
    have h5 : (m.relevantTotal + m.pageSize - 1) % m.pageSize < m.pageSize :=
      Int.emod_lt_of_pos _ hps
    rw [← hq] at h3
    have hub : m.relevantTotal ≤ q * m.pageSize := by nlinarith
    have hlb : (q - 1) * m.pageSize < m.relevantTotal := by nlinarith
    have hq1 : 1 ≤ q := by nlinarith
    refine ⟨hq1, fun h => absurd h hT, fun _ => ⟨hlb, hub⟩, fun hp => ?_⟩
    simp only [GridState.statusPagePair, htp, if_neg hT, h2, ← hq]
    omega

/-- Witness for C10 on an empty filtered result (relevant total 0). -/
theorem totalPages_ge_one_witness :
    (0 : Int) < gridUsersPage2.pageSize ∧
    gridUsersPage2.totalPages = 3 ∧
    1 ≤ gridUsersPage2.totalPages :=
  ⟨by decide, by decide, (totalPages_ge_one gridUsersPage2 (by decide)).1⟩

/- ----------------------------------------------------------------- -/
/- Claim C4: fitColumns                                               -/
/- ----------------------------------------------------------------- -/

lemma measureColWidth_pos (i : Nat) (h : String) (rows : List Row) :
    0 < measureColWidth i h rows := by
  unfold measureColWidth minColWidth maxColWidth colPadding
  dsimp only
  split_ifs <;> omega

lemma availWidth_pos (innerWidth : Int) : 0 < availWidth innerWidth := by
  unfold availWidth minColWidth
  split_ifs <;> omega

lemma fitKeep_cons (rows : List Row) (available : Int) (total : Nat)
    (c : String) (rest : List String) (i : Nat) (used : Int) :
    fitKeep rows available total (c :: rest) i used =
      (let w := measureColWidth i c rows
       let needed := w + (if 0 < (total : Int) - (i : Int) - 1 then indicatorColLen else 0)
       if used + needed > available ∧ 0 < i then []
       else w :: fitKeep rows available total rest (i + 1) (used + w)) := rfl

lemma fitKeep_length_le (rows : List Row) (available : Int) :
    ∀ (cs : List String) (total i : Nat) (used : Int),
      (fitKeep rows available total cs i used).length ≤ cs.length := by
  intro cs
  induction cs with
  | nil => intro total i used; simp [fitKeep]
  | cons c rest ih =>
    intro total i used
    rw [fitKeep_cons]
    dsimp only
    have hrec := ih total (i + 1) (used + measureColWidth i c rows)
    split_ifs <;> simp only [List.length_nil, List.length_cons] <;> omega

lemma fitKeep_sum_bound (rows : List Row) (available : Int) (hav : 0 < available) :
    ∀ (cs : List String) (total i : Nat) (used : Int),
      total = i + cs.length →
      ((i = 0 ∧ used = 0 ∧ (cs ≠ [] →
          measureColWidth 0 (cs.headD "") rows +
            (if 1 < cs.length then indicatorColLen else 0) ≤ available)) ∨
       (0 < i ∧ used + (if 0 < cs.length then indicatorColLen else 0) ≤ available)) →
      used + (fitKeep rows available total cs i used).sum +
        (if (fitKeep rows available total cs i used).length < cs.length
         then indicatorColLen else 0) ≤ available := by
  intro cs
  induction cs with
  | nil =>
    intro total i used htot hyp
    simp only [fitKeep, List.sum_nil, List.length_nil, Nat.lt_irrefl, if_false]
    rcases hyp with ⟨_, h0, _⟩ | ⟨_, h⟩
    · omega
    · simpa using h
  | cons c rest ih =>
    intro total i used htot hyp
    rw [fitKeep_cons]
    dsimp only
    have hwpos := measureColWidth_pos i c rows
    have hrem : (total : Int) - (i : Int) - 1 = (rest.length : Int) := by
      have h1 : total = i + (rest.length + 1) := by simpa using htot
      omega
    by_cases hguard :
        used + (measureColWidth i c rows +
          (if 0 < (total : Int) - (i : Int) - 1 then indicatorColLen else 0)) > available ∧ 0 < i
    · rw [if_pos hguard]
      simp only [List.sum_nil, List.length_nil, List.length_cons]
      have hlen : 0 < rest.length + 1 := Nat.succ_pos _
      rw [if_pos hlen]
      rcases hyp with ⟨hi0, _, _⟩ | ⟨hipos, h⟩
      · exact absurd hguard.2 (by omega)
      · rw [if_pos (by simp : 0 < (c :: rest).length)] at h
        linarith
    · rw [if_neg hguard]
      have hstep : used + measureColWidth i c rows +
          (if 0 < rest.length then indicatorColLen else 0) ≤ available := by
        rcases hyp with ⟨hi0, hu0, hfirst⟩ | ⟨hipos, _⟩
        · subst hi0
          subst hu0
          have h := hfirst (by simp)
          simp only [List.headD_cons, List.length_cons] at h
          rcases Nat.eq_zero_or_pos rest.length with h0 | hpos
          · have c1 : ¬ 1 < rest.length + 1 := by omega
            have c2 : ¬ 0 < rest.length := by omega
            rw [if_neg c1] at h
            rw [if_neg c2]
            linarith
          · have c1 : 1 < rest.length + 1 := by omega
            rw [if_pos c1] at h
            rw [if_pos hpos]
            linarith
        · have hA : ¬ (used + (measureColWidth i c rows +
              (if 0 < (total : Int) - (i : Int) - 1 then indicatorColLen else 0)) > available) :=
            fun hA => hguard ⟨hA, hipos⟩
          push_neg at hA
          rw [hrem] at hA
          rcases Nat.eq_zero_or_pos rest.length with h0 | hpos
          · simp only [h0] at hA ⊢
            simpa using hA
          · have hposI : (0 : Int) < (rest.length : Int) := by exact_mod_cast hpos
            rw [if_pos hposI] at hA
            rw [if_pos hpos]
            linarith
      have hrec := ih total (i + 1) (used + measureColWidth i c rows)
        (by simp at htot; omega)
        (Or.inr ⟨Nat.succ_pos i, hstep⟩)
      simp only [List.sum_cons, List.length_cons]
      have hiff : ((fitKeep rows available total rest (i + 1)
            (used + measureColWidth i c rows)).length + 1 < rest.length + 1) ↔
          ((fitKeep rows available total rest (i + 1)
            (used + measureColWidth i c rows)).length < rest.length) :=
        Nat.succ_lt_succ_iff
      rw [if_congr hiff rfl rfl]
      linarith

lemma sum_map_add_const (l : List Int) (a : Int) :
    (l.map (fun w => w + a)).sum = l.sum + (l.length : Int) * a := by
  induction l with
  | nil => simp
  | cons x xs ih =>
    simp only [List.map_cons, List.sum_cons, ih, List.length_cons]
    push_cast
    ring

/-- C4 counterexample: with headers ["alpha","beta"] on an inner width of 12
the budget is 10; the first column (width 10) is accepted unconditionally,
the second is hidden, and the returned width plus the reserved indicator
width (10 + 12 = 22) exceeds the available width 10 — so the claimed bound
"sum of widths plus indicator reservation never exceeds the available
width" is false. -/
theorem fitColumns_budget_counterexample :
    (fitColumns ["alpha", "beta"] [] 12).1 = 1 ∧
    (fitColumns ["alpha", "beta"] [] 12).1 < (["alpha", "beta"] : List String).length ∧
    availWidth 12 <
      (fitColumns ["alpha", "beta"] [] 12).2.sum + indicatorColLen := by
  decide

/-- C4 (amended): for every non-empty header list the fitter returns at
least one display column, unconditionally — even when the first column alone
overflows the budget; and the sum of the returned widths, plus the indicator
reservation when columns remain hidden, stays within the available width
provided the first column's measured width (plus the indicator reservation
when more than one column exists) itself fits the budget.  Without that
proviso the bound can fail, as the counterexample shows, because the first
column is accepted unconditionally. -/
theorem fitColumns_pos_and_budget (columns : List String) (rows : List Row)
    (innerWidth : Int) (hc : columns ≠ []) :
    1 ≤ (fitColumns columns rows innerWidth).1 ∧
    (measureColWidth 0 (columns.headD "") rows +
        (if 1 < columns.length then indicatorColLen else 0) ≤ availWidth innerWidth →
      (fitColumns columns rows innerWidth).2.sum +
        (if (fitColumns columns rows innerWidth).1 < columns.length
         then indicatorColLen else 0) ≤ availWidth innerWidth) := by
  obtain ⟨c, rest, rfl⟩ := List.exists_cons_of_ne_nil hc
  have hav := availWidth_pos innerWidth
  set av := availWidth innerWidth with havdef
  set ws := fitKeep rows av (c :: rest).length (c :: rest) 0 0 with hws
  have hws_cons : ws = measureColWidth 0 c rows ::
      fitKeep rows av (c :: rest).length rest 1 (0 + measureColWidth 0 c rows) := by
    rw [hws, fitKeep_cons]
    simp
  have hlen1 : 1 ≤ ws.length := by rw [hws_cons]; simp
  have hlenle : ws.length ≤ (c :: rest).length := by
    rw [hws]
    exact fitKeep_length_le rows av (c :: rest) (c :: rest).length 0 0
  have hfc : fitColumns (c :: rest) rows innerWidth =
      (let used := ws.sum
       let displayCols := ws.length
       let hiddenCols := (c :: rest).length - displayCols
       let leftover0 := av - used
       let leftover := if 0 < hiddenCols then leftover0 - indicatorColLen else leftover0
       if 0 < leftover ∧ 0 < displayCols then
         (displayCols, ws.map (fun w => w + goDiv leftover (displayCols : Int)))
       else (displayCols, ws)) := rfl
  constructor
  · rw [hfc]
    dsimp only
    split_ifs <;> simpa using hlen1
  · intro hfit
    have hbound : ws.sum +
        (if ws.length < (c :: rest).length then indicatorColLen else 0) ≤ av := by
      have h := fitKeep_sum_bound rows av hav (c :: rest) (c :: rest).length 0 0
        (by simp) (Or.inl ⟨rfl, rfl, fun _ => hfit⟩)
      rw [← hws] at h
      simpa using h
    rw [hfc]
    dsimp only
    by_cases hdist :
        0 < (if 0 < (c :: rest).length - ws.length then av - ws.sum - indicatorColLen
             else av - ws.sum) ∧ 0 < ws.length
    · rw [if_pos hdist]
      set lo := (if 0 < (c :: rest).length - ws.length then av - ws.sum - indicatorColLen
                 else av - ws.sum) with hlo
      have hlo0 : 0 < lo := hdist.1
      have hdc : (0 : Int) < (ws.length : Int) := by exact_mod_cast hlen1
      have hdiv : goDiv lo (ws.length : Int) = lo / (ws.length : Int) :=
        Int.tdiv_eq_ediv (le_of_lt hlo0) (le_of_lt hdc)
      have hmul : (ws.length : Int) * (lo / (ws.length : Int)) ≤ lo := by
        have h3 := Int.ediv_add_emod lo (ws.length : Int)
        have h4 := Int.emod_nonneg lo (by omega : (ws.length : Int) ≠ 0)
        linarith
      simp only [hdiv, sum_map_add_const, List.length_map]
      rcases Nat.lt_or_ge ws.length (c :: rest).length with hlt | hge
      · rw [if_pos hlt]
        have hh : 0 < (c :: rest).length - ws.length := by omega
        rw [if_pos hh] at hlo
        linarith
      · have heqlen : ws.length = (c :: rest).length := le_antisymm hlenle hge
        have hnlt : ¬ ws.length < (c :: rest).length := by omega
        have hnh : ¬ 0 < (c :: rest).length - ws.length := by omega
        rw [if_neg hnlt]
        rw [if_neg hnh] at hlo
        linarith
    · rw [if_neg hdist]
      simpa using hbound

/-- Witness for C4 (amended): the positivity conjunct at the overflowing
two-column counterexample input (where the budget proviso fails), and the
budget conjunct at a single short column in a wide pane (where it holds). -/
theorem fitColumns_pos_and_budget_witness :
    ((["alpha", "beta"] : List String) ≠ [] ∧
     1 ≤ (fitColumns ["alpha", "beta"] [] 12).1) ∧
    ((measureColWidth 0 ((["id"] : List String).headD "") [] +
        (if 1 < (["id"] : List String).length then indicatorColLen else 0)
        ≤ availWidth 50) ∧
     ((fitColumns ["id"] [] 50).2.sum +
        (if (fitColumns ["id"] [] 50).1 < (["id"] : List String).length
         then indicatorColLen else 0) ≤ availWidth 50)) :=
  ⟨⟨by decide, (fitColumns_pos_and_budget ["alpha", "beta"] [] 12 (by decide)).1⟩,
   ⟨by decide, (fitColumns_pos_and_budget ["id"] [] 50 (by decide)).2 (by decide)⟩⟩

/- ----------------------------------------------------------------- -/
/- Claim C2: page navigation invariant                                -/
/- ----------------------------------------------------------------- -/

lemma applyPageData_totalPages (m : GridState) (rows : List Row)
    (p : Int) (cEnd : Bool) :
    (applyPageData m rows p m.pageSize m.relevantTotal cEnd).totalPages =
      m.totalPages := by
  have hrt : (applyPageData m rows p m.pageSize m.relevantTotal cEnd).relevantTotal =
      m.relevantTotal := by
    cases h : m.fActive <;>
      simp [applyPageData, GridState.relevantTotal, h]
  have hps : (applyPageData m rows p m.pageSize m.relevantTotal cEnd).pageSize =
      m.pageSize := rfl
  simp only [GridState.totalPages, hrt, hps]

/-- C2: in Browsing state with pageSize > 0 and a valid page index, a
next-page key at the last page and a previous-page key at page 0 issue no
command and leave the grid unchanged (the key falls through to the wrapped
table, which does not bind it); otherwise the key leaves the grid unchanged
and issues exactly the fetch for the adjacent page, which is again in
range, and applying the resulting completion (spec-modelled, carrying the
requested page, the same page size and the unchanged relevant total)
re-establishes 0 ≤ page < totalPages.  Concretely, 25 records at page size
10 give 3 pages, page 2 holds the last 5 rows, and next-page on page 2 is a
no-op. -/
theorem pageNavigation_preserves_page_invariant (db : Db) (m : GridState)
    (hf : m.fState = .filterOff) (_hps : 0 < m.pageSize)
    (h0 : 0 ≤ m.page) (h1 : m.page < m.totalPages) :
    (¬ m.hasNextPage → gridUpdateKey db m "]" = (m, .none)) ∧
    (¬ m.hasPrevPage → gridUpdateKey db m "[" = (m, .none)) ∧
    (m.hasNextPage → gridUpdateKey db m "]" = (m, m.nextPageCmd) ∧
      0 ≤ m.page + 1 ∧ m.page + 1 < m.totalPages) ∧
    (m.hasPrevPage → gridUpdateKey db m "[" = (m, m.prevPageCmd) ∧
      0 ≤ m.page - 1 ∧ m.page - 1 < m.totalPages) ∧
    (∀ rows p cEnd, 0 ≤ p → p < m.totalPages →
      0 ≤ (applyPageData m rows p m.pageSize m.relevantTotal cEnd).page ∧
      (applyPageData m rows p m.pageSize m.relevantTotal cEnd).page <
        (applyPageData m rows p m.pageSize m.relevantTotal cEnd).totalPages) ∧
    gridUsersPage2.totalPages = 3 ∧
    usersDb.getRows "users" 10 20 =
      Except.ok [["20"], ["21"], ["22"], ["23"], ["24"]] ∧
    gridUpdateKey usersDb gridUsersPage2 "]" = (gridUsersPage2, .none) := by
  refine ⟨?_, ?_, ?_, ?_, ?_, by decide, by rfl, by decide⟩
  · intro hn
    simp [gridUpdateKey, hf, updateNormal, keyMatches, nextPageKeys, prevPageKeys,
      selectKeys, tableUpdateKey, hn]
  · intro hp
    simp [gridUpdateKey, hf, updateNormal, keyMatches, nextPageKeys, prevPageKeys,
      selectKeys, tableUpdateKey, hp]
  · intro hn
    have hlt : m.page + 1 < m.totalPages := by
      have := hn
      unfold GridState.hasNextPage at this
      omega
    refine ⟨?_, by omega, hlt⟩
    simp [gridUpdateKey, hf, updateNormal, keyMatches, nextPageKeys, prevPageKeys, hn]
  · intro hp
    have hge : 0 < m.page := hp
    refine ⟨?_, by omega, by omega⟩
    simp [gridUpdateKey, hf, updateNormal, keyMatches, nextPageKeys, prevPageKeys, hp]
  · intro rows p cEnd hp0 hp1
    refine ⟨by simpa [applyPageData] using hp0, ?_⟩
    rw [applyPageData_totalPages]
    simpa [applyPageData] using hp1

/-- Witness for C2 at the concrete `users` scenario (page 2 of 3). -/
theorem pageNavigation_preserves_page_invariant_witness :
    (gridUsersPage2.fState = FState.filterOff ∧
     (0 : Int) < gridUsersPage2.pageSize ∧
     0 ≤ gridUsersPage2.page ∧
     gridUsersPage2.page < gridUsersPage2.totalPages ∧
     ¬ gridUsersPage2.hasNextPage) ∧
    gridUpdateKey usersDb gridUsersPage2 "]" = (gridUsersPage2, .none) :=
  ⟨⟨by decide, by decide, by decide, by decide, by decide⟩,
   (pageNavigation_preserves_page_invariant usersDb gridUsersPage2 (by decide)
      (by decide) (by decide) (by decide)).1 (by decide)⟩

/- ----------------------------------------------------------------- -/
/- Claim C3: filter round-trip                                        -/
/- ----------------------------------------------------------------- -/

/-- Backend whose column filter always matches exactly the row ["Bob"]. -/
def filterDb : Db where
  getRows := fun _ _ _ => .ok []
  countRows := fun _ => .ok 0
  filterRows := fun _ _ _ _ _ => .ok [["Bob"]]
  countFiltered := fun _ _ _ => .ok 1
  exec := fun _ => .error "no exec"

/-- A grid in Browsing state on page 1 with no filter active. -/
def gridPreFilter : GridState :=
  NewTableDataModel "t" ["name"] [["Anna"], ["Bob"]] 50 20 1 10 25

/-- The key sequence of the claim: open the filter (f), choose the first
column (enter), type the character `c`, confirm (enter), then cancel the
confirmed filter — after confirming, the grid is back in Browsing state, so
the only cancel route is re-opening the filter UI (f) and dismissing it
(esc), which is the transition that clears fActive and restores fPrevPage. -/
def filterConfirmCancelSeq (db : Db) (g : GridState) (c : String) : GridState :=
  let s1 := (gridUpdateKey db g "f").1
  let s2 := (gridUpdateKey db s1 "enter").1
  let s3 := (gridUpdateKey db s2 c).1
  let s4 := (gridUpdateKey db s3 "enter").1
  let s5 := (gridUpdateKey db s4 "f").1
  (gridUpdateKey db s5 "esc").1

/-- C3 counterexample: starting from page 1, the open/choose/type/confirm/
cancel sequence ends on page 0, not the pre-filter page 1 — confirming the
filter reset the page to 0, and re-opening the filter UI to cancel it
overwrote the saved pre-filter page with 0. -/
theorem filterRoundTrip_loses_page_index :
    gridPreFilter.fState = FState.filterOff ∧
    gridPreFilter.page = 1 ∧
    (filterConfirmCancelSeq filterDb gridPreFilter "a").page = 0 ∧
    ((0 : Int) ≠ 1) := by
  decide

/-- C3 (amended): the sequence restores the unfiltered row set (the page
rows held before the filter was opened) and clears the filter, but the page
index it restores is the one saved at the most recent filter opening: since
confirming a non-empty filter resets the page to 0, cancelling afterwards
lands on page 0 — the original page p is restored only when p = 0 (or when
the filter is cancelled before a non-empty value was applied). -/
lemma applyFilter_ok (db : Db) (m : GridState) (rows : List Row)
    (hne : ¬ m.fInputValue = "")
    (hq : db.filterRows m.tableName m.fCol m.fInputValue m.pageSize 0 =
      Except.ok rows) :
    applyFilter db m =
      { m with
        fTotalRows :=
          match db.countFiltered m.tableName m.fCol m.fInputValue with
          | .ok t => t
          | .error _ => (rows.length : Int),
        page := 0,
        tableRows := truncateRows rows m.displayCols m.hasHiddenCols,
        cursor := clampI 0 0
          (((truncateRows rows m.displayCols m.hasHiddenCols).length : Int) - 1) } := by
  unfold applyFilter
  rw [if_neg hne, hq]

theorem filterRoundTrip_restores_rows_and_reset_page (db : Db) (g : GridState)
    (c : String) (hf : g.fState = .filterOff) (hc : c.length = 1)
    (rows : List Row)
    (hq : db.filterRows g.tableName (g.columns.getD 0 "") c g.pageSize 0 =
      Except.ok rows) :
    (filterConfirmCancelSeq db g c).page = 0 ∧
    (filterConfirmCancelSeq db g c).fActive = false ∧
    (filterConfirmCancelSeq db g c).fQuery = "" ∧
    (filterConfirmCancelSeq db g c).allRows = g.allRows ∧
    (filterConfirmCancelSeq db g c).tableRows =
      truncateRows g.allRows g.displayCols g.hasHiddenCols := by
  have hc_esc : c ≠ "esc" := by intro h; rw [h] at hc; exact absurd hc (by decide)
  have hc_ent : c ≠ "enter" := by intro h; rw [h] at hc; exact absurd hc (by decide)
  have hc_ne : c ≠ "" := by intro h; rw [h] at hc; exact absurd hc (by decide)
  have happ : "" ++ c = c := String.ext (by rw [String.data_append]; rfl)
  have h1 : (gridUpdateKey db g "f").1 =
      { g with fState := FState.filterPickCol, fColIndex := 0, fColScroll := 0,
               fPrevPage := g.page } := by
    simp [gridUpdateKey, hf, updateNormal]
  have h2 : (gridUpdateKey db
      { g with fState := FState.filterPickCol, fColIndex := 0, fColScroll := 0,
               fPrevPage := g.page } "enter").1 =
      { g with fState := FState.filterInput, fColIndex := 0, fColScroll := 0,
               fPrevPage := g.page, fCol := g.columns.getD 0 "",
               fInputValue := "" } := by
    simp [gridUpdateKey, updatePickCol]
  have h3 : (gridUpdateKey db
      { g with fState := FState.filterInput, fColIndex := 0, fColScroll := 0,
               fPrevPage := g.page, fCol := g.columns.getD 0 "",
               fInputValue := "" } c).1 =
      { g with fState := FState.filterInput, fColIndex := 0, fColScroll := 0,
               fPrevPage := g.page, fCol := g.columns.getD 0 "",
               fInputValue := c,
               fTotalRows :=
                 match db.countFiltered g.tableName (g.columns.getD 0 "") c with
                 | .ok t => t
                 | .error _ => (rows.length : Int),
               page := 0,
               tableRows := truncateRows rows g.displayCols g.hasHiddenCols,
               cursor := clampI 0 0
                 (((truncateRows rows g.displayCols g.hasHiddenCols).length : Int) - 1) } := by
    have e : (gridUpdateKey db
        { g with fState := FState.filterInput, fColIndex := 0, fColScroll := 0,
                 fPrevPage := g.page, fCol := g.columns.getD 0 "",
                 fInputValue := "" } c).1 =
        applyFilter db
          { g with fState := FState.filterInput, fColIndex := 0, fColScroll := 0,
                   fPrevPage := g.page, fCol := g.columns.getD 0 "",
                   fInputValue := c } := by
      simp [gridUpdateKey, updateFilterInput, hc_esc, hc_ent, textInputUpdate, hc, happ]
    rw [e, applyFilter_ok db _ rows hc_ne hq]
    rfl
  have h4 : (gridUpdateKey db
      { g with fState := FState.filterInput, fColIndex := 0, fColScroll := 0,
               fPrevPage := g.page, fCol := g.columns.getD 0 "",
               fInputValue := c,
               fTotalRows :=
                 match db.countFiltered g.tableName (g.columns.getD 0 "") c with
                 | .ok t => t
                 | .error _ => (rows.length : Int),
               page := 0,
               tableRows := truncateRows rows g.displayCols g.hasHiddenCols,
               cursor := clampI 0 0
                 (((truncateRows rows g.displayCols g.hasHiddenCols).length : Int) - 1) }
      "enter").1 =
      { g with fState := FState.filterOff, fColIndex := 0, fColScroll := 0,
               fPrevPage := g.page, fCol := g.columns.getD 0 "",
               fInputValue := c,
               fTotalRows :=
                 match db.countFiltered g.tableName (g.columns.getD 0 "") c with
                 | .ok t => t
                 | .error _ => (rows.length : Int),
               page := 0,
               tableRows := truncateRows rows g.displayCols g.hasHiddenCols,
               cursor := clampI 0 0
                 (((truncateRows rows g.displayCols g.hasHiddenCols).length : Int) - 1),
               fActive := true, fQuery := c } := by
    simp [gridUpdateKey, updateFilterInput, hc_ne]
  have h5 : (gridUpdateKey db
      { g with fState := FState.filterOff, fColIndex := 0, fColScroll := 0,
               fPrevPage := g.page, fCol := g.columns.getD 0 "",
               fInputValue := c,
               fTotalRows :=
                 match db.countFiltered g.tableName (g.columns.getD 0 "") c with
                 | .ok t => t
                 | .error _ => (rows.length : Int),
               page := 0,
               tableRows := truncateRows rows g.displayCols g.hasHiddenCols,
               cursor := clampI 0 0
                 (((truncateRows rows g.displayCols g.hasHiddenCols).length : Int) - 1),
               fActive := true, fQuery := c } "f").1 =
      { g with fState := FState.filterPickCol, fColIndex := 0, fColScroll := 0,
               fPrevPage := 0, fCol := g.columns.getD 0 "",
               fInputValue := c,
               fTotalRows :=
                 match db.countFiltered g.tableName (g.columns.getD 0 "") c with
                 | .ok t => t
                 | .error _ => (rows.length : Int),
               page := 0,
               tableRows := truncateRows rows g.displayCols g.hasHiddenCols,
               cursor := clampI 0 0
                 (((truncateRows rows g.displayCols g.hasHiddenCols).length : Int) - 1),
               fActive := true, fQuery := c } := by
    simp [gridUpdateKey, updateNormal]
  have h6 : (gridUpdateKey db
      { g with fState := FState.filterPickCol, fColIndex := 0, fColScroll := 0,
               fPrevPage := 0, fCol := g.columns.getD 0 "",
               fInputValue := c,
               fTotalRows :=
                 match db.countFiltered g.tableName (g.columns.getD 0 "") c with
                 | .ok t => t
                 | .error _ => (rows.length : Int),
               page := 0,
               tableRows := truncateRows rows g.displayCols g.hasHiddenCols,
               cursor := clampI 0 0
                 (((truncateRows rows g.displayCols g.hasHiddenCols).length : Int) - 1),
               fActive := true, fQuery := c } "esc").1 =
      { g with fState := FState.filterOff, fColIndex := 0, fColScroll := 0,
               fPrevPage := 0, fCol := g.columns.getD 0 "",
               fInputValue := c,
               fTotalRows := 0,
               page := 0,
               tableRows := truncateRows g.allRows g.displayCols g.hasHiddenCols,
               cursor := clampI 0 0
                 (((truncateRows g.allRows g.displayCols g.hasHiddenCols).length : Int) - 1),
               fActive := false, fQuery := "" } := by
    simp [gridUpdateKey, updatePickCol, GridState.hasHiddenCols]
  have hfinal : filterConfirmCancelSeq db g c =
      { g with fState := FState.filterOff, fColIndex := 0, fColScroll := 0,
               fPrevPage := 0, fCol := g.columns.getD 0 "",
               fInputValue := c,
               fTotalRows := 0,
               page := 0,
               tableRows := truncateRows g.allRows g.displayCols g.hasHiddenCols,
               cursor := clampI 0 0
                 (((truncateRows g.allRows g.displayCols g.hasHiddenCols).length : Int) - 1),
               fActive := false, fQuery := "" } := by
    simp only [filterConfirmCancelSeq]
    rw [h1, h2, h3, h4, h5, h6]
  rw [hfinal]
  exact ⟨rfl, rfl, rfl, rfl, rfl⟩

/-- Witness for C3 (amended) at the concrete pre-filter grid. -/
theorem filterRoundTrip_restores_rows_and_reset_page_witness :
    ("a".length = 1) ∧
    (filterConfirmCancelSeq filterDb gridPreFilter "a").page = 0 :=
  ⟨by decide,
   (filterRoundTrip_restores_rows_and_reset_page filterDb gridPreFilter "a"
      (by decide) (by decide) [["Bob"]] rfl).1⟩

/- ----------------------------------------------------------------- -/
/- Root-level fixtures                                                -/
/- ----------------------------------------------------------------- -/

/-- Grid currently displaying collection "b". -/
def gridB : GridState := NewTableDataModel "b" ["id"] [["2"]] 51 20 0 1000 1

/-- A root model with the table list loaded and grid data for "b" shown. -/
def rootB : RootModel :=
  { focused := .data, loaded := true, dataLoaded := true, err := none,
    width := 80, height := 24, leftWidth := 25, rightWidth := 51,
    tableList := newListState ["a", "b"],
    tableData := gridB,
    showDetail := false, rowDetail := { columns := [], values := [] },
    showQuery := false, queryInput := newQueryState }

/- ----------------------------------------------------------------- -/
/- Claim C1: stale-completion guard                                   -/
/- ----------------------------------------------------------------- -/

/-- C1 counterexample: with collection "b" currently displayed, applying a
late tableDataLoadedMsg for collection "a" (whose context no longer matches)
replaces the grid's collection and displayed rows with the stale payload —
the handler has no guard, so the claim that a mismatched completion leaves
the grid unchanged is false. -/
theorem staleTableDataLoaded_overwrites_grid :
    rootB.tableData.tableName = "b" ∧
    rootB.tableData.tableRows = [["2"]] ∧
    (rootUpdate usersDb rootB (.tableDataLoaded "a" ["id"] [["1"]])).1.tableData.tableName = "a" ∧
    (rootUpdate usersDb rootB (.tableDataLoaded "a" ["id"] [["1"]])).1.tableData.tableRows = [["1"]] ∧
    (("a" : String) ≠ "b") := by
  decide

/-- C1 (amended): the completion handlers apply their payload
unconditionally — a tableDataLoadedMsg rebuilds the grid from the message
alone (last-writer-wins), independent of whether its collection still
matches the current grid, and pageDataLoadedMsg carries no collection or
filter-column context that any handler could check. -/
theorem tableDataLoaded_applies_unconditionally (db : Db) (m : RootModel)
    (h1 : m.showQuery = false) (h2 : m.showDetail = false)
    (name : String) (cols : List String) (rows : List Row) :
    (rootUpdate db m (.tableDataLoaded name cols rows)).1.tableData =
      mkLoadedGrid name cols rows m.rightWidth (paneHeight m) ∧
    (rootUpdate db m (.tableDataLoaded name cols rows)).1.dataLoaded = true := by
  simp [rootUpdate, h1, h2, rootUpdateMain]

/-- Witness for C1 (amended) at the concrete "b"-showing model. -/
theorem tableDataLoaded_applies_unconditionally_witness :
    (rootB.showQuery = false ∧ rootB.showDetail = false) ∧
    (rootUpdate usersDb rootB (Msg.tableDataLoaded "a" ["id"] [["1"]])).1.tableData =
      mkLoadedGrid "a" ["id"] [["1"]] rootB.rightWidth (paneHeight rootB) :=
  ⟨⟨rfl, rfl⟩,
   (tableDataLoaded_applies_unconditionally usersDb rootB rfl rfl "a" ["id"] [["1"]]).1⟩

/- ----------------------------------------------------------------- -/
/- Claim C5: record selection payload                                 -/
/- ----------------------------------------------------------------- -/

/-- A grid whose confirmed filter displays only ["Bob"], while allRows still
holds the unfiltered page rows [["Anna"], ["Bob"]] (exactly the state after
updateFilterInput's enter, which does not refresh allRows). -/
def gridFiltered : GridState :=
  { NewTableDataModel "t" ["name"] [["Anna"], ["Bob"]] 50 20 0 10 2 with
    fActive := true, fQuery := "bo", fCol := "name", fTotalRows := 1,
    tableRows := [["Bob"]] }

/-- C5 (code bug): with the filter showing only ["Bob"] and the cursor on
it, Select emits RowSelectedMsg with Values = allRows[0] = ["Anna"] — the
unfiltered page's row at the cursor index, not the selected record.  The
RowSelectedMsg doc comment promises "that row's values"; under an active
filter the cursor indexes the filtered rows while the values are taken from
the unfiltered allRows, so the detail view receives the wrong record. -/
theorem select_emits_unfiltered_row_under_filter :
    gridFiltered.fActive = true ∧
    gridFiltered.tableRows.getD gridFiltered.cursor.toNat [] = ["Bob"] ∧
    (gridUpdateKey usersDb gridFiltered "enter").2 =
      GridCmd.rowSelected ["name"] ["Anna"] ∧
    ((["Anna"] : Row) ≠ ["Bob"]) := by
  decide

/- ----------------------------------------------------------------- -/
/- Claim C6: quit suppression while a text input captures             -/
/- ----------------------------------------------------------------- -/

/-- The root model with the grid's filter-value input actively capturing. -/
def rootGridFilterInput : RootModel :=
  { rootB with tableData := { gridB with fState := .filterInput } }

/-- C6 counterexample: while the data grid's filter-value input is actively
capturing free-text, pressing "q" terminates the program — the quit
suppression only checks the collection list's fuzzy filter, so the claim
that quit never fires while a filter text input captures is false. -/
theorem quit_fires_during_grid_filter_input :
    rootGridFilterInput.tableData.fState = FState.filterInput ∧
    rootGridFilterInput.showQuery = false ∧
    rootGridFilterInput.showDetail = false ∧
    (rootUpdate usersDb rootGridFilterInput (.key "q")).2 = RootCmd.quit := by
  decide

/-- C6 (amended): quit is suppressed only while the collection list's fuzzy
filter is capturing (the key is delegated to the list instead); while the
data grid has focus — including while its filter-value input is capturing —
the quit key still terminates the program. -/
theorem quit_suppressed_only_for_list_filter (db : Db) (m : RootModel)
    (h1 : m.showQuery = false) (h2 : m.showDetail = false) :
    (m.focused = Pane.list → m.tableList.filtering = true →
      (rootUpdate db m (.key "q")).2 ≠ RootCmd.quit ∧
      (rootUpdate db m (.key "ctrl+c")).2 ≠ RootCmd.quit) ∧
    (m.focused = Pane.data →
      (rootUpdate db m (.key "q")).2 = RootCmd.quit) := by
  constructor
  · intro hfoc hfilt
    constructor <;>
      cases hl : m.loaded <;>
        simp [rootUpdate, h1, h2, rootUpdateMain, rootUpdateKey, keyMatches,
          switchTabKeys, focusRightKeys, focusLeftKeys, quitKeys, openQueryKeys,
          delegate, listUpdate, hfoc, hfilt, hl]
  · intro hfoc
    simp [rootUpdate, h1, h2, rootUpdateMain, rootUpdateKey, keyMatches,
      switchTabKeys, focusRightKeys, focusLeftKeys, quitKeys, openQueryKeys,
      hfoc]

/-- Witness for C6 (amended): the list's fuzzy filter capturing "q". -/
def rootListFiltering : RootModel :=
  { rootB with
    focused := Pane.list
    tableList := { items := ["a", "b"], filtering := true, selected := some "a" } }

theorem quit_suppressed_only_for_list_filter_witness :
    (rootListFiltering.showQuery = false ∧ rootListFiltering.showDetail = false ∧
     rootListFiltering.focused = Pane.list ∧
     rootListFiltering.tableList.filtering = true) ∧
    (rootUpdate usersDb rootListFiltering (Msg.key "q")).2 ≠ RootCmd.quit :=
  ⟨⟨rfl, rfl, rfl, rfl⟩,
   ((quit_suppressed_only_for_list_filter usersDb rootListFiltering rfl rfl).1
      rfl rfl).1⟩

/- ----------------------------------------------------------------- -/
/- Claim C7: error message application                                -/
/- ----------------------------------------------------------------- -/

/-- C7 counterexample: applying errMsg to a model that already shows loaded
data (not a first load) leaves the grid state untouched but switches the
entire view to the error screen — the last-good rows are no longer
rendered, so the claim that they remain visible is false. -/
theorem errMsg_replaces_view_with_error_screen :
    rootB.dataLoaded = true ∧
    rootViewKind rootB = ViewKind.mainSplit ∧
    (rootUpdate usersDb rootB (.errM "boom")).1.tableData = rootB.tableData ∧
    rootViewKind (rootUpdate usersDb rootB (.errM "boom")).1 = ViewKind.errorScreen ∧
    (ViewKind.errorScreen ≠ ViewKind.mainSplit) := by
  decide

/-- C7 (amended): applying errMsg only records the error: the grid's rows,
page index and counts are unchanged and no command is issued, but the view
switches entirely to the error screen — whether or not data was previously
loaded — rather than keeping the last-good rows visible. -/
theorem errMsg_preserves_grid_state_shows_error (db : Db) (m : RootModel)
    (e : String) (h1 : m.showQuery = false) (h2 : m.showDetail = false) :
    (rootUpdate db m (.errM e)).1 = { m with err := some e } ∧
    (rootUpdate db m (.errM e)).1.tableData = m.tableData ∧
    (rootUpdate db m (.errM e)).2 = RootCmd.none ∧
    rootViewKind (rootUpdate db m (.errM e)).1 = ViewKind.errorScreen := by
  simp [rootUpdate, h1, h2, rootUpdateMain, rootViewKind]

/-- Witness for C7 (amended) at the loaded "b"-showing model. -/
theorem errMsg_preserves_grid_state_shows_error_witness :
    (rootB.showQuery = false ∧ rootB.showDetail = false) ∧
    rootViewKind (rootUpdate usersDb rootB (Msg.errM "boom")).1 = ViewKind.errorScreen :=
  ⟨⟨rfl, rfl⟩,
   (errMsg_preserves_grid_state_shows_error usersDb rootB "boom" rfl rfl).2.2.2⟩

/- ----------------------------------------------------------------- -/
/- Claim C8: failed query keeps the modal intact                      -/
/- ----------------------------------------------------------------- -/

/-- C8: if executing the typed query fails, the modal stays open, the error
is recorded and rendered inline on the modal's error line, the typed text
is unchanged, no command is issued, and the grid is untouched. -/
theorem queryExec_failure_keeps_modal_and_text (db : Db) (m : RootModel)
    (e : String) (h1 : m.showQuery = true) (hv : m.queryInput.value ≠ "")
    (he : db.exec m.queryInput.value = Except.error e) :
    (rootUpdate db m (.key "ctrl+r")).1.showQuery = true ∧
    (rootUpdate db m (.key "ctrl+r")).1.queryInput.value = m.queryInput.value ∧
    (rootUpdate db m (.key "ctrl+r")).1.queryInput.queryErr = e ∧
    (rootUpdate db m (.key "ctrl+r")).1.tableData = m.tableData ∧
    (rootUpdate db m (.key "ctrl+r")).2 = RootCmd.none ∧
    (e ≠ "" → queryErrLine (rootUpdate db m (.key "ctrl+r")).1.queryInput =
      "Error: " ++ e) := by
  have hup : rootUpdate db m (.key "ctrl+r") =
      ({ m with queryInput := { m.queryInput with queryErr := e } }, .none) := by
    simp [rootUpdate, rootUpdateQueryOpen, h1, queryUpdate, he, hv]
  rw [hup]
  refine ⟨h1, rfl, rfl, rfl, rfl, ?_⟩
  intro hee
  simp [queryErrLine, hee]

/-- The query modal open over rootB with the text "SELEC" typed. -/
def rootQuery : RootModel :=
  { rootB with showQuery := true, queryInput := { value := "SELEC", queryErr := "" } }

/-- Witness for C8 with a backend whose execution fails. -/
theorem queryExec_failure_keeps_modal_and_text_witness :
    (rootQuery.showQuery = true ∧ rootQuery.queryInput.value ≠ "") ∧
    (rootUpdate usersDb rootQuery (Msg.key "ctrl+r")).1.queryInput.queryErr =
      "not a table backend" :=
  ⟨⟨rfl, by decide⟩,
   (queryExec_failure_keeps_modal_and_text usersDb rootQuery "not a table backend"
      rfl (by decide) rfl).2.2.1⟩
